import Mathlib

/-!
# Verification of the notasound control plane

A shallow embedding of the runtime control plane of `notasound.ino`:
the IR command latch (`IREvent`), the command dispatcher (`getirl` and
its helper routines `set_strand`, `set_strandfav`, `set_strandlen`,
`set_meshdel`), the demo scheduler (`demo_check`), the palette rotation
step of `loop`, and the first-boot EEPROM initialization of `setup`.

Machine integers are modelled as `Nat` with explicit `% 2^w` at the
points where the C arithmetic wraps (`uint8_t` = `% 256`,
`uint16_t` = `% 65536`); C's integer promotion means comparisons such
as `NUM_LEDS > 255` happen on the promoted (non-wrapped) value of the
variable, which for a stored `uint8_t` is its value `≤ 255`.

The LED frame buffer and the serial logging are omitted from the state:
no claim below depends on pixel contents, and the spec declares
diagnostic output advisory.  Calls that matter to the claims only by
the fact and order of their occurrence (the mesh-delay blocking wait,
the mode-entry render, palette assignments, the reboot) are recorded as
an explicit event trace.
-/

namespace Notasound

/-- Modelled from the spec: `commands.h` (a file of this repository not
under `src/`) defines the 24 remote-control button codes used by the
dispatch switch.  Only their distinctness is used by the control flow,
so they are given distinct numerals here. -/
def IR_A1 : Nat := 1
def IR_A2 : Nat := 2
def IR_A3 : Nat := 3
def IR_A4 : Nat := 4
def IR_B1 : Nat := 5
def IR_B2 : Nat := 6
def IR_B3 : Nat := 7
def IR_B4 : Nat := 8
def IR_C1 : Nat := 9
def IR_C2 : Nat := 10
def IR_C3 : Nat := 11
def IR_C4 : Nat := 12
def IR_D1 : Nat := 13
def IR_D2 : Nat := 14
def IR_D3 : Nat := 15
def IR_D4 : Nat := 16
def IR_E1 : Nat := 17
def IR_E2 : Nat := 18
def IR_E3 : Nat := 19
def IR_E4 : Nat := 20
def IR_F1 : Nat := 21
def IR_F2 : Nat := 22
def IR_F3 : Nat := 23
def IR_F4 : Nat := 24

/-- `#define MAX_LEDS 64` -/
def MAX_LEDS : Nat := 64

/-- `const uint32_t STRANDID = IR_A2;` -/
def STRANDID : Nat := IR_A2

/-- `uint8_t maxMode = 17;` (never written after initialization). -/
def maxMode : Nat := 17

/-- `uint8_t demotime = 10;` (never written after initialization). -/
def demotime : Nat := 10

-- EEPROM location definitions.
def ISINIT    : Nat := 0
def STARTMODE : Nat := 1
def STRANDLEN : Nat := 2
def STRANDEL  : Nat := 3
def FAV1      : Nat := 4
def FAV2      : Nat := 5

def INITVAL  : Nat := 0x55
def INITMODE : Nat := 0
def INITLEN  : Nat := 20
def INITDEL  : Nat := 0
def INITFAV  : Nat := 0

/-- `#define IRL_BLOCKING true` -/
def IRL_BLOCKING : Bool := true

/-- Observable calls made by the control code, in program order:
the mesh-delay blocking wait, a call `strobe_mode(mode, mc)`, a
`FastLED.show()`, the reboot jump, and the two palette assignments
(`currentPalette = gGradientPalettes[i]` respectively
`targetPalette = gGradientPalettes[i]`). -/
inductive Event where
  | meshwaitEv : Event
  | strobeEv (mode : Nat) (mc : Bool) : Event
  | showEv : Event
  | rebootEv : Event
  | setCurrentPaletteEv (i : Nat) : Event
  | setTargetPaletteEv (i : Nat) : Event
deriving DecidableEq, Repr

/-- The global mutable state of the sketch that the claims touch.
`gPaletteCount` models the `extern const uint8_t gGradientPaletteCount`
(defined in `gradient_palettes.h`, not under `src/`); it is a constant
the control code never writes.  `eeprom` maps an EEPROM address to the
stored byte. -/
structure MachineState where
  IRProtocol : Nat
  IRAddress : Nat
  IRCommand : Nat
  strandActive : Bool
  strandFlag : Bool
  NUM_LEDS : Nat
  meshdelay : Nat
  ledMode : Nat
  demorun : Nat
  lastSecond : Nat
  max_bright : Nat
  squelch : Nat
  thisdelay : Nat
  thisdir : Int
  glitter : Bool
  palchg : Nat
  currentPaletteNumber : Nat
  gPaletteCount : Nat
  eeprom : Nat → Nat

/-- `EEPROM.write(addr, v)` — the value parameter is a `uint8_t`,
hence the `% 256`. -/
def eewrite (e : Nat → Nat) (addr v : Nat) : Nat → Nat :=
  fun a => if a = addr then v % 256 else e a

/-- FastLED's `addmod8(a, b, m)`: byte addition followed by reduction
modulo `m` (the library loops `while (a >= m) a -= m`; for `m = 0`,
which never occurs here, the model returns the byte sum). -/
def addmod8 (a b m : Nat) : Nat := ((a + b) % 256) % m

/-- The first-boot EEPROM initialization block of `setup()`
(lines 422–429): if the sentinel byte is absent, write the factory
defaults in source order and set the sentinel. -/
def initializeIfNeeded (e : Nat → Nat) : Nat → Nat :=
  if e ISINIT ≠ INITVAL then
    eewrite (eewrite (eewrite (eewrite (eewrite
      (eewrite e STARTMODE INITMODE) STRANDLEN INITLEN)
      ISINIT INITVAL) STRANDEL INITDEL) FAV1 INITFAV) FAV2 INITFAV
  else e

/-- `IREvent(protocol, address, command)` — the asynchronous IR
delivery callback: store the triple only when no command is live. -/
def IREvent (protocol address command : Nat) (s : MachineState) :
    MachineState :=
  if IRL_BLOCKING ∧ s.IRProtocol = 0 then
    { s with IRProtocol := protocol, IRAddress := address,
             IRCommand := command }
  else s

/-- `set_strand()` — two-stage strand selection: the select command
re-arms the pending flag and clears the latch; any other command
answers the pending select, setting `strandActive` by comparison with
`STRANDID` and clearing both the pending flag and the latch. -/
def set_strand (s : MachineState) : MachineState :=
  let s := if s.IRCommand = IR_B1 then
             { s with IRProtocol := 0, strandFlag := true } else s
  if s.IRProtocol ≠ 0 then
    { s with strandFlag := false,
             strandActive := s.IRCommand == STRANDID,
             IRProtocol := 0 }
  else s

/-- `set_strandfav()` — persist the current mode into favourite 1 or 2
while the strand is active, then clear the latch. -/
def set_strandfav (s : MachineState) : MachineState :=
  let s :=
    if s.strandActive then
      let s := if s.IRCommand = IR_E1 then
                 { s with eeprom := eewrite s.eeprom FAV1 s.ledMode }
               else s
      if s.IRCommand = IR_E4 then
        { s with eeprom := eewrite s.eeprom FAV2 s.ledMode }
      else s
    else s
  { s with IRProtocol := 0 }

/-- `set_strandlen()` — adjust `NUM_LEDS` (a `uint8_t`, so `NUM_LEDS--`
wraps `0 → 255`) and persist it.  The guard `if (NUM_LEDS > 255)
NUM_LEDS = 0;` compares the stored byte, which is never `> 255`. -/
def set_strandlen (s : MachineState) : MachineState :=
  if s.strandActive then
    let s := { s with demorun := 0, ledMode := 0 }
    if s.IRCommand = IR_B2 then
      let n := (s.NUM_LEDS + 255) % 256
      let n := if n > 255 then 0 else n
      { s with NUM_LEDS := n, eeprom := eewrite s.eeprom STRANDLEN n }
    else
      let n := (s.NUM_LEDS + 1) % 256
      let n := if n ≥ MAX_LEDS then MAX_LEDS - 1 else n
      { s with NUM_LEDS := n, eeprom := eewrite s.eeprom STRANDLEN n }
  else s

/-- `set_meshdel()` — adjust the mesh delay (a `uint16_t`, so
`meshdelay - 1` wraps `0 → 65535`, caught by the `> 10000` guard) and
persist it. -/
def set_meshdel (s : MachineState) : MachineState :=
  if s.strandActive then
    let s := { s with demorun := 0, ledMode := 0 }
    if s.IRCommand = IR_E2 then
      let d := (s.meshdelay + 65535) % 65536
      let d := if d > 10000 then 0 else d
      { s with meshdelay := d, eeprom := eewrite s.eeprom STRANDEL d }
    else
      let d := (s.meshdelay + 1) % 65536
      { s with meshdelay := d, eeprom := eewrite s.eeprom STRANDEL d }
  else s

/-- The `switch (newMode)` table of `strobe_mode` as far as it touches
the control state: the per-mode default `thisdelay` assigned on a mode
change (modes 0 and out-of-range leave it unchanged). -/
def stdelayTable (newMode d : Nat) : Nat :=
  match newMode with
  |  1 => 20 |  2 => 40 |  3 => 40 |  4 => 0  |  5 => 30 |  6 => 10
  |  7 => 10 |  8 => 30 |  9 => 10 | 10 => 10 | 11 => 40 | 12 => 20
  | 13 => 30 | 14 => 40 | 15 => 0  | 16 => 30 | 17 => 10 | _ => d

/-- `strobe_mode(newMode, mc)` — on a mode change (`mc = 1`) set the
per-mode default frame delay from the switch table; the render call
itself is recorded as an event. -/
def strobe_mode (newMode : Nat) (mc : Bool) (s : MachineState) :
    MachineState × List Event :=
  let s :=
    if mc then { s with thisdelay := stdelayTable newMode s.thisdelay }
    else s
  (s, [Event.strobeEv newMode mc])

/-- The `switch (IRCommand)` body of `getirl()` (lines 561–595), one
branch per button in source order. -/
def girDispatch (s : MachineState) : MachineState × List Event :=
  if s.IRCommand = IR_A1 then
    ({ s with max_bright := min (s.max_bright * 2) 255 }, [])
  else if s.IRCommand = IR_A2 then
    ({ s with max_bright := max (s.max_bright / 2) 1 }, [])
  else if s.IRCommand = IR_A3 then
    (s, [Event.showEv, Event.rebootEv])
  else if s.IRCommand = IR_A4 then
    ({ s with demorun := 1 }, [Event.meshwaitEv])
  else if s.IRCommand = IR_B1 then
    (set_strand s, [])
  else if s.IRCommand = IR_B2 then
    (if s.strandActive then set_strandlen s else s, [])
  else if s.IRCommand = IR_B3 then
    (if s.strandActive then set_strandlen s else s, [])
  else if s.IRCommand = IR_B4 then
    let q := (s.squelch + 255) % 256
    let q := if q > 240 then 0 else q
    ({ s with squelch := q }, [])
  else if s.IRCommand = IR_C1 then
    ({ s with squelch := (s.squelch + 1) % 256 }, [])
  else if s.IRCommand = IR_C2 then
    ({ s with thisdelay := (s.thisdelay + 1) % 65536 }, [])
  else if s.IRCommand = IR_C3 then
    let d := (s.thisdelay + 65535) % 65536
    let d := if d > 30000 then 0 else d
    ({ s with thisdelay := d }, [])
  else if s.IRCommand = IR_C4 then
    ({ s with thisdir := s.thisdir * (-1) }, [])
  else if s.IRCommand = IR_D1 then
    ({ s with glitter := !s.glitter }, [])
  else if s.IRCommand = IR_D2 then
    let s := { s with demorun := 0 }
    let m := (s.ledMode + 255) % 256
    let m := if m = 255 then maxMode else m
    let s := { s with ledMode := m }
    let r := strobe_mode m true s
    (r.1, Event.meshwaitEv :: r.2)
  else if s.IRCommand = IR_D3 then
    let s := { s with demorun := 0 }
    let m := (s.ledMode + 1) % (maxMode + 1)
    let s := { s with ledMode := m }
    let r := strobe_mode m true s
    (r.1, Event.meshwaitEv :: r.2)
  else if s.IRCommand = IR_D4 then
    ({ s with eeprom := eewrite s.eeprom STARTMODE s.ledMode }, [])
  else if s.IRCommand = IR_E1 then
    if s.strandActive then (set_strandfav s, [])
    else
      let s := { s with demorun := 0, ledMode := s.eeprom FAV1 }
      let r := strobe_mode s.ledMode true s
      (r.1, Event.meshwaitEv :: r.2)
  else if s.IRCommand = IR_E2 then
    (if s.strandActive then set_meshdel s else s, [])
  else if s.IRCommand = IR_E3 then
    (if s.strandActive then set_meshdel s else s, [])
  else if s.IRCommand = IR_E4 then
    if s.strandActive then (set_strandfav s, [])
    else
      let s := { s with demorun := 0, ledMode := s.eeprom FAV2 }
      let r := strobe_mode s.ledMode true s
      (r.1, Event.meshwaitEv :: r.2)
  else if s.IRCommand = IR_F1 then
    ({ s with palchg := 0 }, [])
  else if s.IRCommand = IR_F2 then
    let s := { s with palchg := 1 }
    let i := (s.currentPaletteNumber + 255) % 256
    let i := if i = 255 then s.gPaletteCount else i
    ({ s with currentPaletteNumber := i },
     [Event.setCurrentPaletteEv i])
  else if s.IRCommand = IR_F3 then
    let s := { s with palchg := 2 }
    let i := addmod8 s.currentPaletteNumber 1 s.gPaletteCount
    ({ s with currentPaletteNumber := i },
     [Event.setCurrentPaletteEv i])
  else if s.IRCommand = IR_F4 then
    ({ s with palchg := 3 }, [])
  else (s, [])

/-- `getirl()` — if a command is latched, run the pending strand
selection when armed, dispatch the command, and clear the latch. -/
def getirl (s : MachineState) : MachineState × List Event :=
  if s.IRProtocol ≠ 0 then
    let s := if s.strandFlag then set_strand s else s
    let r := girDispatch s
    ({ r.1 with IRProtocol := 0 }, r.2)
  else (s, [])

/-- `demo_check()` — when demo mode is set, derive the current slot
second from the elapsed milliseconds, debounce it against
`lastSecond`, and on a slot second divisible by `demotime` select the
next mode (the `rnd` argument models `random8(0, maxMode)` used by
shuffle mode) and enter it. -/
def demo_check (rnd ms : Nat) (s : MachineState) :
    MachineState × List Event :=
  if s.demorun ≠ 0 then
    let secondHand := (ms / 1000) % (maxMode * demotime)
    if s.lastSecond ≠ secondHand then
      let s := { s with lastSecond := secondHand }
      if secondHand % demotime = 0 then
        let m := if s.demorun = 2 then rnd else secondHand / demotime
        let s := { s with ledMode := m }
        let r := strobe_mode m true s
        (r.1, Event.meshwaitEv :: r.2)
      else (s, [])
    else (s, [])
  else (s, [])

/-- The `EVERY_N_SECONDS(5)` body of `loop()` (lines 464–469): advance
the palette index only in continuous-rotation mode (`palchg == 3`),
then always assign the target palette from the table. -/
def paletteRotate (s : MachineState) : MachineState × List Event :=
  let s :=
    if s.palchg = 3 then
      { s with currentPaletteNumber :=
          addmod8 s.currentPaletteNumber 1 s.gPaletteCount }
    else s
  (s, [Event.setTargetPaletteEv s.currentPaletteNumber])

/-- Deliver a sequence of asynchronous IR events in order. -/
def deliverAll (s : MachineState) (ds : List (Nat × Nat × Nat)) :
    MachineState :=
  ds.foldl (fun t d => IREvent d.1 d.2.1 d.2.2 t) s

/-- Run `demo_check` (with shuffle oracle 0) at each listed time in
order, collecting the mode selected at each pass that performed a
transition. -/
def demoModesAt (ts : List Nat) (s : MachineState) : List Nat :=
  match ts with
  | [] => []
  | t :: rest =>
    let r := demo_check 0 t s
    (if r.2 ≠ [] then [r.1.ledMode] else []) ++ demoModesAt rest r.1

end Notasound

namespace Notasound

/-! ## Helper lemmas -/

lemma strobe_mode_eq (n : Nat) (b : Bool) (s : MachineState) :
    strobe_mode n b s =
      ({ s with thisdelay :=
          if b then stdelayTable n s.thisdelay else s.thisdelay },
       [Event.strobeEv n b]) := by
  cases b <;> rfl

lemma IREvent_of_empty (p a c : Nat) (s : MachineState)
    (h : s.IRProtocol = 0) :
    IREvent p a c s =
      { s with IRProtocol := p, IRAddress := a, IRCommand := c } := by
  simp [IREvent, IRL_BLOCKING, h]

lemma IREvent_of_live (p a c : Nat) (s : MachineState)
    (h : s.IRProtocol ≠ 0) : IREvent p a c s = s := by
  simp [IREvent, IRL_BLOCKING, h]

lemma deliverAll_of_live (s : MachineState)
    (ds : List (Nat × Nat × Nat)) (h : s.IRProtocol ≠ 0) :
    deliverAll s ds = s := by
  induction ds with
  | nil => rfl
  | cons d ds ih =>
    show deliverAll (IREvent d.1 d.2.1 d.2.2 s) ds = s
    rw [IREvent_of_live _ _ _ _ h]
    exact ih

lemma getirl_fst_IRProtocol (s : MachineState) :
    (getirl s).1.IRProtocol = 0 := by
  by_cases h : s.IRProtocol = 0
  · simp [getirl, h]
  · simp [getirl, h]

end Notasound

namespace Notasound

/-- A concrete machine state used to instantiate witnesses: the state
right after a first boot (mode 0, 20 LEDs, no mesh delay, empty IR
latch, demo off, `lastSecond` at its static initial value 99), with a
palette table of 8 entries. -/
def testState : MachineState :=
  { IRProtocol := 0, IRAddress := 0, IRCommand := 0,
    strandActive := false, strandFlag := false,
    NUM_LEDS := 20, meshdelay := 0, ledMode := 0, demorun := 0,
    lastSecond := 99, max_bright := 255, squelch := 0, thisdelay := 0,
    thisdir := 1, glitter := false, palchg := 3,
    currentPaletteNumber := 0, gPaletteCount := 8,
    eeprom := fun _ => 0 }

/-- `testState` with a latched command `c`, used by witnesses. -/
def latched (c : Nat) : MachineState :=
  { testState with IRProtocol := 1, IRCommand := c }

/-- C5: on storage whose sentinel byte (`ISINIT`) does not hold
`INITVAL`, the first-boot initialization writes `startupMode = 0`,
`strandLength = 20`, `meshDelayUnits = 0`, `favorite1 = 0`,
`favorite2 = 0` and sets the sentinel, and running it a second time on
the resulting storage changes no location (idempotence). -/
theorem C5_first_boot_init (e : Nat → Nat) (h : e ISINIT ≠ INITVAL) :
    initializeIfNeeded e STARTMODE = 0 ∧
    initializeIfNeeded e STRANDLEN = 20 ∧
    initializeIfNeeded e STRANDEL = 0 ∧
    initializeIfNeeded e FAV1 = 0 ∧
    initializeIfNeeded e FAV2 = 0 ∧
    initializeIfNeeded e ISINIT = INITVAL ∧
    ∀ a, initializeIfNeeded (initializeIfNeeded e) a
           = initializeIfNeeded e a := by
  have base : initializeIfNeeded e
      = eewrite (eewrite (eewrite (eewrite (eewrite
          (eewrite e STARTMODE INITMODE) STRANDLEN INITLEN)
          ISINIT INITVAL) STRANDEL INITDEL) FAV1 INITFAV) FAV2 INITFAV := by
    rw [initializeIfNeeded, if_pos h]
  have hs : initializeIfNeeded e ISINIT = INITVAL := by
    rw [base]
    simp [eewrite, ISINIT, STARTMODE, STRANDLEN, STRANDEL, FAV1, FAV2,
          INITVAL]
  refine ⟨?_, ?_, ?_, ?_, ?_, hs, ?_⟩
  · rw [base]
    simp [eewrite, ISINIT, STARTMODE, STRANDLEN, STRANDEL, FAV1, FAV2,
          INITMODE]
  · rw [base]
    simp [eewrite, ISINIT, STARTMODE, STRANDLEN, STRANDEL, FAV1, FAV2,
          INITLEN]
  · rw [base]
    simp [eewrite, ISINIT, STARTMODE, STRANDLEN, STRANDEL, FAV1, FAV2,
          INITDEL]
  · rw [base]
    simp [eewrite, ISINIT, STARTMODE, STRANDLEN, STRANDEL, FAV1, FAV2,
          INITFAV]
  · rw [base]
    simp [eewrite, ISINIT, STARTMODE, STRANDLEN, STRANDEL, FAV1, FAV2,
          INITFAV]
  · intro a
    have hn : ¬ (initializeIfNeeded e ISINIT ≠ INITVAL) := by simp [hs]
    rw [initializeIfNeeded, if_neg hn]

/-- Witness for C5 at the all-zero storage. -/
theorem C5_first_boot_init_witness :
    ((fun _ => 0) : Nat → Nat) ISINIT ≠ INITVAL ∧
    (initializeIfNeeded (fun _ => 0) STARTMODE = 0 ∧
     initializeIfNeeded (fun _ => 0) STRANDLEN = 20 ∧
     initializeIfNeeded (fun _ => 0) STRANDEL = 0 ∧
     initializeIfNeeded (fun _ => 0) FAV1 = 0 ∧
     initializeIfNeeded (fun _ => 0) FAV2 = 0 ∧
     initializeIfNeeded (fun _ => 0) ISINIT = INITVAL ∧
     ∀ a, initializeIfNeeded (initializeIfNeeded (fun _ => 0)) a
            = initializeIfNeeded (fun _ => 0) a) :=
  ⟨by decide, C5_first_boot_init (fun _ => 0) (by decide)⟩

/-- C1: starting from an empty latch, of any burst of asynchronous IR
deliveries with nonzero protocol only the first is stored — the later
ones leave the state (hence the stored triple) unchanged; `getirl`
leaves the latch empty; and the emptied latch again accepts exactly
the first of the next burst. -/
theorem C1_command_latch (s : MachineState) (p a c : Nat)
    (ds : List (Nat × Nat × Nat)) (h0 : s.IRProtocol = 0)
    (hp : p ≠ 0) :
    (deliverAll s ((p, a, c) :: ds)).IRProtocol = p ∧
    (deliverAll s ((p, a, c) :: ds)).IRAddress = a ∧
    (deliverAll s ((p, a, c) :: ds)).IRCommand = c ∧
    deliverAll s ((p, a, c) :: ds) = IREvent p a c s ∧
    (getirl (deliverAll s ((p, a, c) :: ds))).1.IRProtocol = 0 ∧
    ∀ p' a' c' (ds' : List (Nat × Nat × Nat)), p' ≠ 0 →
      deliverAll (getirl (deliverAll s ((p, a, c) :: ds))).1
          ((p', a', c') :: ds')
        = IREvent p' a' c' (getirl (deliverAll s ((p, a, c) :: ds))).1 := by
  have h1 : IREvent p a c s
      = { s with IRProtocol := p, IRAddress := a, IRCommand := c } :=
    IREvent_of_empty p a c s h0
  have h2 : deliverAll s ((p, a, c) :: ds) = IREvent p a c s := by
    show deliverAll (IREvent p a c s) ds = IREvent p a c s
    apply deliverAll_of_live
    rw [h1]
    exact hp
  refine ⟨?_, ?_, ?_, h2, getirl_fst_IRProtocol _, ?_⟩
  · rw [h2, h1]
  · rw [h2, h1]
  · rw [h2, h1]
  · intro p' a' c' ds' hp'
    show deliverAll (IREvent p' a' c' _) ds' = _
    apply deliverAll_of_live
    rw [IREvent_of_empty p' a' c' _ (getirl_fst_IRProtocol _)]
    exact hp'

/-- Witness for C1: a two-delivery burst followed by consumption and a
second two-delivery burst, on the concrete boot state. -/
theorem C1_command_latch_witness :
    testState.IRProtocol = 0 ∧ (1 : Nat) ≠ 0 ∧
    ((deliverAll testState ((1, 7, IR_D1) :: [(1, 8, IR_D3)])).IRProtocol = 1 ∧
     (deliverAll testState ((1, 7, IR_D1) :: [(1, 8, IR_D3)])).IRAddress = 7 ∧
     (deliverAll testState ((1, 7, IR_D1) :: [(1, 8, IR_D3)])).IRCommand = IR_D1 ∧
     deliverAll testState ((1, 7, IR_D1) :: [(1, 8, IR_D3)])
       = IREvent 1 7 IR_D1 testState ∧
     (getirl (deliverAll testState ((1, 7, IR_D1) :: [(1, 8, IR_D3)]))).1.IRProtocol = 0 ∧
     ∀ p' a' c' (ds' : List (Nat × Nat × Nat)), p' ≠ 0 →
       deliverAll (getirl (deliverAll testState ((1, 7, IR_D1) :: [(1, 8, IR_D3)]))).1
           ((p', a', c') :: ds')
         = IREvent p' a' c'
             (getirl (deliverAll testState ((1, 7, IR_D1) :: [(1, 8, IR_D3)]))).1) :=
  ⟨rfl, by decide,
   C1_command_latch testState 1 7 IR_D1 [(1, 8, IR_D3)] rfl (by decide)⟩

end Notasound

namespace Notasound

/-- C6: for every current mode `m ∈ [0, maxMode]`, the next-mode
command (`IR_D3`) yields `(m+1) mod (maxMode+1)` and the previous-mode
command (`IR_D2`) yields `(m-1) mod (maxMode+1)` — written here as
`(m + maxMode) % (maxMode + 1)`, the same residue — so next from the
last mode gives 0 and previous from 0 gives `maxMode`. -/
theorem C6_mode_cycling (s : MachineState) (m : Nat)
    (hP : s.IRProtocol ≠ 0) (hF : s.strandFlag = false)
    (hm : s.ledMode = m) (hle : m ≤ maxMode) :
    (s.IRCommand = IR_D3 →
      (getirl s).1.ledMode = (m + 1) % (maxMode + 1)) ∧
    (s.IRCommand = IR_D2 →
      (getirl s).1.ledMode = (m + maxMode) % (maxMode + 1)) := by
  rw [maxMode] at hle
  constructor <;> intro hc
  · simp [getirl, girDispatch, strobe_mode_eq, hP, hF, hc, hm, maxMode,
      IR_A1, IR_A2, IR_A3, IR_A4, IR_B1, IR_B2, IR_B3, IR_B4,
      IR_C1, IR_C2, IR_C3, IR_C4, IR_D1, IR_D2, IR_D3, IR_D4,
      IR_E1, IR_E2, IR_E3, IR_E4, IR_F1, IR_F2, IR_F3, IR_F4]
  · simp [getirl, girDispatch, strobe_mode_eq, hP, hF, hc, hm, maxMode,
      IR_A1, IR_A2, IR_A3, IR_A4, IR_B1, IR_B2, IR_B3, IR_B4,
      IR_C1, IR_C2, IR_C3, IR_C4, IR_D1, IR_D2, IR_D3, IR_D4,
      IR_E1, IR_E2, IR_E3, IR_E4, IR_F1, IR_F2, IR_F3, IR_F4]
    split_ifs <;> omega

/-- Witness for C6 at mode 0: previous wraps to `maxMode`. -/
theorem C6_mode_cycling_witness :
    (latched IR_D2).IRProtocol ≠ 0 ∧
    ((latched IR_D2).IRCommand = IR_D2 →
      (getirl (latched IR_D2)).1.ledMode
        = (0 + maxMode) % (maxMode + 1)) :=
  ⟨by decide,
   (C6_mode_cycling (latched IR_D2) 0 (by decide) rfl rfl (by decide)).2⟩

/-- C7: every explicit mode-changing command (mode previous `IR_D2`,
mode next `IR_D3`, favourite recall `IR_E1`/`IR_E4` with
`strandActive = 0`) leaves `demorun = 0`, and its observable trace is
exactly the mesh wait followed by `strobe_mode(newMode, 1)` — the new
mode's first initialization render never happens without the mesh wait
having run before it. -/
theorem C7_meshwait_before_frame (s : MachineState)
    (hP : s.IRProtocol ≠ 0) (hF : s.strandFlag = false)
    (hc : s.IRCommand = IR_D2 ∨ s.IRCommand = IR_D3 ∨
          ((s.IRCommand = IR_E1 ∨ s.IRCommand = IR_E4) ∧
            s.strandActive = false)) :
    (getirl s).1.demorun = 0 ∧
    (getirl s).2
      = [Event.meshwaitEv, Event.strobeEv (getirl s).1.ledMode true] := by
  rcases hc with hc | hc | ⟨hc | hc, hA⟩
  · simp [getirl, girDispatch, strobe_mode_eq, hP, hF, hc,
      IR_A1, IR_A2, IR_A3, IR_A4, IR_B1, IR_B2, IR_B3, IR_B4,
      IR_C1, IR_C2, IR_C3, IR_C4, IR_D1, IR_D2, IR_D3, IR_D4,
      IR_E1, IR_E2, IR_E3, IR_E4, IR_F1, IR_F2, IR_F3, IR_F4]
  · simp [getirl, girDispatch, strobe_mode_eq, hP, hF, hc,
      IR_A1, IR_A2, IR_A3, IR_A4, IR_B1, IR_B2, IR_B3, IR_B4,
      IR_C1, IR_C2, IR_C3, IR_C4, IR_D1, IR_D2, IR_D3, IR_D4,
      IR_E1, IR_E2, IR_E3, IR_E4, IR_F1, IR_F2, IR_F3, IR_F4]
  · simp [getirl, girDispatch, strobe_mode_eq, hP, hF, hc, hA,
      IR_A1, IR_A2, IR_A3, IR_A4, IR_B1, IR_B2, IR_B3, IR_B4,
      IR_C1, IR_C2, IR_C3, IR_C4, IR_D1, IR_D2, IR_D3, IR_D4,
      IR_E1, IR_E2, IR_E3, IR_E4, IR_F1, IR_F2, IR_F3, IR_F4]
  · simp [getirl, girDispatch, strobe_mode_eq, hP, hF, hc, hA,
      IR_A1, IR_A2, IR_A3, IR_A4, IR_B1, IR_B2, IR_B3, IR_B4,
      IR_C1, IR_C2, IR_C3, IR_C4, IR_D1, IR_D2, IR_D3, IR_D4,
      IR_E1, IR_E2, IR_E3, IR_E4, IR_F1, IR_F2, IR_F3, IR_F4]

/-- Witness for C7 with the next-mode command. -/
theorem C7_meshwait_before_frame_witness :
    (latched IR_D3).IRProtocol ≠ 0 ∧
    (getirl (latched IR_D3)).1.demorun = 0 ∧
    (getirl (latched IR_D3)).2
      = [Event.meshwaitEv,
         Event.strobeEv (getirl (latched IR_D3)).1.ledMode true] :=
  ⟨by decide,
   C7_meshwait_before_frame (latched IR_D3)
     (by decide) rfl (Or.inr (Or.inl rfl))⟩

/-- C9: with `strandActive = 1` and current mode `m`, the set-favourite
command `IR_E1` persists `m` at EEPROM location `FAV1`; a later
`IR_E1` issued on a state with `strandActive = 0` whose EEPROM agrees
with the stored one reads that location back and sets the current mode
to `m`. -/
theorem C9_favorite_roundtrip (s t : MachineState) (m : Nat)
    (hP : s.IRProtocol ≠ 0) (hF : s.strandFlag = false)
    (hA : s.strandActive = true) (hc : s.IRCommand = IR_E1)
    (hm : s.ledMode = m) (hlt : m < 256) :
    (getirl s).1.eeprom FAV1 = m ∧
    (t.IRProtocol ≠ 0 → t.strandFlag = false → t.strandActive = false →
      t.IRCommand = IR_E1 → t.eeprom = (getirl s).1.eeprom →
      (getirl t).1.ledMode = m) := by
  have h1 : (getirl s).1.eeprom FAV1 = m := by
    simp [getirl, girDispatch, set_strandfav, eewrite, hP, hF, hA, hc,
      hm, FAV1, FAV2,
      IR_A1, IR_A2, IR_A3, IR_A4, IR_B1, IR_B2, IR_B3, IR_B4,
      IR_C1, IR_C2, IR_C3, IR_C4, IR_D1, IR_D2, IR_D3, IR_D4,
      IR_E1, IR_E2, IR_E3, IR_E4, IR_F1, IR_F2, IR_F3, IR_F4]
    omega
  refine ⟨h1, ?_⟩
  intro tP tF tA tc te
  have h2 : (getirl t).1.ledMode = t.eeprom FAV1 := by
    simp [getirl, girDispatch, strobe_mode_eq, tP, tF, tA, tc,
      IR_A1, IR_A2, IR_A3, IR_A4, IR_B1, IR_B2, IR_B3, IR_B4,
      IR_C1, IR_C2, IR_C3, IR_C4, IR_D1, IR_D2, IR_D3, IR_D4,
      IR_E1, IR_E2, IR_E3, IR_E4, IR_F1, IR_F2, IR_F3, IR_F4]
  rw [h2, te, h1]

end Notasound

namespace Notasound

/-- The state used for C9: strand active, mode 7, `IR_E1` latched. -/
def favSetState : MachineState :=
  { testState with
    IRProtocol := 1, IRCommand := IR_E1,
    strandActive := true, ledMode := 7 }

/-- The later recall state for C9: strand inactive, `IR_E1` latched,
EEPROM as left by the set-favourite command. -/
def favRecallState : MachineState :=
  { testState with
    IRProtocol := 1, IRCommand := IR_E1,
    eeprom := (getirl favSetState).1.eeprom }

/-- Witness for C9: mode 7 is persisted and recalled. -/
theorem C9_favorite_roundtrip_witness :
    favSetState.IRProtocol ≠ 0 ∧ (7 : Nat) < 256 ∧
    (getirl favSetState).1.eeprom FAV1 = 7 ∧
    (getirl favRecallState).1.ledMode = 7 :=
  ⟨by decide, by decide,
   (C9_favorite_roundtrip favSetState favRecallState 7
      (by decide) rfl rfl rfl rfl (by decide)).1,
   (C9_favorite_roundtrip favSetState favRecallState 7
      (by decide) rfl rfl rfl rfl (by decide)).2
     (by decide) rfl rfl rfl rfl⟩

/-- The C3 failing input: strand active, strand length 0, decrement
command `IR_B2` latched. -/
def underflowState : MachineState :=
  { testState with
    strandActive := true, IRCommand := IR_B2, NUM_LEDS := 0 }

/-- C3 (code bug exhibit): decrementing the strand length at 0 wraps
to 255 — `NUM_LEDS` is a `uint8_t`, so `NUM_LEDS--` wraps and the
guard `if (NUM_LEDS > 255) NUM_LEDS = 0;` can never fire — and the
wrapped value, far outside `[0, MAX_LEDS-1]`, is even persisted to
EEPROM. -/
theorem C3_strandlen_wrap_bug :
    (set_strandlen underflowState).NUM_LEDS = 255 ∧
    ¬ (set_strandlen underflowState).NUM_LEDS ≤ MAX_LEDS - 1 ∧
    (set_strandlen underflowState).eeprom STRANDLEN = 255 := by
  refine ⟨rfl, by decide, rfl⟩

/-- The C8 input states: strand active, mesh-delay decrement command
`IR_E2` latched, with `meshdelay = k`. -/
def meshState (k : Nat) : MachineState :=
  { testState with
    strandActive := true, IRCommand := IR_E2, meshdelay := k }

/-- C8 counterexample: decrementing `meshdelay = 10002` yields 0 (the
`> 10000` clamp fires), not `10002 - 1` as the claim's universal
"for every k > 0 the decrement yields k-1" requires. -/
theorem C8_meshdel_counterexample :
    (set_meshdel (meshState 10002)).meshdelay = 0 ∧
    (0 : Nat) ≠ 10002 - 1 :=
  ⟨rfl, by decide⟩

/-- C8 (amended): decrementing `meshdelay` saturates at 0 — from 0 it
yields 0, never a large unsigned wrap; for `0 < k ≤ 10001` it yields
`k - 1`; and for `k > 10001` (reachable, since the increment command
is unclamped) the guard clamps the result back to 0. -/
theorem C8_meshdel_saturation (s : MachineState) (k : Nat)
    (hA : s.strandActive = true) (hC : s.IRCommand = IR_E2)
    (hk : s.meshdelay = k) (hle : k ≤ 65535) :
    (set_meshdel s).meshdelay =
      if k = 0 then 0 else if k ≤ 10001 then k - 1 else 0 := by
  simp [set_meshdel, hA, hC, hk, IR_E2]
  split_ifs <;> omega

/-- Witness for C8 at `meshdelay = 0`: the decrement yields 0. -/
theorem C8_meshdel_saturation_witness :
    (meshState 0).strandActive = true ∧ (0 : Nat) ≤ 65535 ∧
    (set_meshdel (meshState 0)).meshdelay =
      if (0 : Nat) = 0 then 0 else if (0 : Nat) ≤ 10001 then 0 - 1 else 0 :=
  ⟨rfl, by decide,
   C8_meshdel_saturation (meshState 0) 0 rfl rfl rfl (by decide)⟩

end Notasound

namespace Notasound

/-- The boot state with sequential demo mode enabled. -/
def demoStart : MachineState := { testState with demorun := 1 }

/-- The first 18 ten-second boundaries: 0 ms, 10000 ms, …, 170000 ms. -/
def demoTimes : List Nat := (List.range 18).map (fun k => k * 10000)

/-- C2 counterexample: running the sequential demo over the first 18
ten-second boundaries selects modes `0,1,…,16` and then wraps back to
`0` — the 18th boundary (170 s) gives mode 0, not 17, because the slot
is `(ms/1000) % (maxMode*demotime) = (ms/1000) % 170` and the selected
mode `slot/10` never reaches 17. -/
theorem C2_demo_counterexample :
    demoModesAt demoTimes demoStart
      = [0, 1, 2, 3, 4, 5, 6, 7, 8, 9, 10, 11, 12, 13, 14, 15, 16, 0] ∧
    demoModesAt demoTimes demoStart
      ≠ [0, 1, 2, 3, 4, 5, 6, 7, 8, 9, 10, 11, 12, 13, 14, 15, 16, 17] := by
  have h : demoModesAt demoTimes demoStart
      = [0, 1, 2, 3, 4, 5, 6, 7, 8, 9, 10, 11, 12, 13, 14, 15, 16, 0] := by
    rfl
  exact ⟨h, by rw [h]; decide⟩

/-- C2 (amended): with `demorun = 1`, whenever `demo_check` performs a
transition at elapsed time `ms` it selects mode `(ms/10000) % 17` —
so the sequence of selected modes is `0,1,…,16,0,…` (mode `maxMode`
itself is never selected) — emitting exactly the mesh wait followed by
the mode-entry render; and any further pass in the same slot second
performs no transition and leaves the state unchanged (exactly one
transition per boundary regardless of loop pass rate). -/
theorem C2_demo_cycle (rnd ms : Nat) (s : MachineState)
    (h1 : s.demorun = 1) :
    ((demo_check rnd ms s).2 ≠ [] →
      (demo_check rnd ms s).1.ledMode = ms / 10000 % 17 ∧
      ms / 10000 % 17 ≤ 16 ∧
      (demo_check rnd ms s).2
        = [Event.meshwaitEv, Event.strobeEv (ms / 10000 % 17) true]) ∧
    (∀ rnd' ms',
      ms' / 1000 % (maxMode * demotime) = ms / 1000 % (maxMode * demotime) →
      demo_check rnd' ms' (demo_check rnd ms s).1
        = ((demo_check rnd ms s).1, [])) := by
  constructor
  · intro hne
    by_cases hL : s.lastSecond = ms / 1000 % (maxMode * demotime)
    · exact absurd (by simp [demo_check, h1, hL]) hne
    · by_cases hM : ms / 1000 % demotime = 0
      · have e1 : (demo_check rnd ms s).1.ledMode
            = ms / 1000 % (maxMode * demotime) / demotime := by
          simp [demo_check, strobe_mode_eq, h1, hL, hM]
        have e2 : ms / 1000 % (maxMode * demotime) / demotime
            = ms / 10000 % 17 := by
          simp only [maxMode, demotime] at hM ⊢
          omega
        have e3 : (demo_check rnd ms s).2
            = [Event.meshwaitEv,
               Event.strobeEv
                 (ms / 1000 % (maxMode * demotime) / demotime) true] := by
          simp [demo_check, strobe_mode_eq, h1, hL, hM]
        exact ⟨by rw [e1, e2], by omega, by rw [e3, e2]⟩
      · exact absurd (by simp [demo_check, h1, hL, hM]) hne
  · intro rnd' ms' hms
    have hLS : (demo_check rnd ms s).1.lastSecond
        = ms / 1000 % (maxMode * demotime) := by
      by_cases hL : s.lastSecond = ms / 1000 % (maxMode * demotime)
      · simp [demo_check, h1, hL]
      · by_cases hM : ms / 1000 % demotime = 0 <;>
          simp [demo_check, strobe_mode_eq, h1, hL, hM]
    have hDR : (demo_check rnd ms s).1.demorun = 1 := by
      by_cases hL : s.lastSecond = ms / 1000 % (maxMode * demotime)
      · simp [demo_check, h1, hL]
      · by_cases hM : ms / 1000 % demotime = 0 <;>
          simp [demo_check, strobe_mode_eq, h1, hL, hM]
    have hsame : (demo_check rnd ms s).1.lastSecond
        = ms' / 1000 % (maxMode * demotime) := by rw [hLS, hms]
    generalize hgen : (demo_check rnd ms s).1 = r at hDR hsame ⊢
    simp [demo_check, hDR, hsame]

/-- Witness for C2: the boundary at 0 ms selects mode 0, and a second
pass at 500 ms (same slot second) changes nothing. -/
theorem C2_demo_cycle_witness :
    demoStart.demorun = 1 ∧
    (demo_check 0 0 demoStart).2 ≠ [] ∧
    (demo_check 0 0 demoStart).1.ledMode = 0 / 10000 % 17 ∧
    demo_check 3 500 (demo_check 0 0 demoStart).1
      = ((demo_check 0 0 demoStart).1, []) :=
  ⟨rfl, by decide,
   ((C2_demo_cycle 0 0 demoStart rfl).1 (by decide)).1,
   (C2_demo_cycle 0 0 demoStart rfl).2 3 500 (by decide)⟩

end Notasound

namespace Notasound

/-- C4 counterexample: with 8 palettes and `currentPaletteNumber = 0`,
the palette-previous command `IR_F2` sets the index to
`gPaletteCount = 8` — one past the last valid index 7, not the
in-range wrap `7` the claim requires — and the synchronous assignment
recorded is to `currentPalette`, not to `targetPalette`. -/
theorem C4_palette_counterexample :
    (getirl (latched IR_F2)).1.currentPaletteNumber = 8 ∧
    ¬ (getirl (latched IR_F2)).1.currentPaletteNumber ≤ 8 - 1 ∧
    (getirl (latched IR_F2)).2 = [Event.setCurrentPaletteEv 8] := by
  refine ⟨rfl, by decide, rfl⟩

/-- C4 (amended): palette-previous (`IR_F2`) decrements
`currentPaletteNumber` but wraps 0 to `gPaletteCount` (one past the
last valid index — the off-by-one preserved from the source), while
palette-next (`IR_F3`) increments with in-range wraparound via
`addmod8`; both synchronously assign `currentPalette` (recorded as
`setCurrentPaletteEv`), set the rotation mode to 1/2 so the 5-second
rotation step no longer advances the index, and `targetPalette` is
assigned the newly indexed entry only by that rotation step. -/
theorem C4_palette_step (s : MachineState)
    (hP : s.IRProtocol ≠ 0) (hF : s.strandFlag = false)
    (hle : s.currentPaletteNumber ≤ 255) :
    (s.IRCommand = IR_F2 →
      (getirl s).1.currentPaletteNumber =
        (if s.currentPaletteNumber = 0 then s.gPaletteCount
         else s.currentPaletteNumber - 1) ∧
      (getirl s).1.palchg = 1 ∧
      (getirl s).2
        = [Event.setCurrentPaletteEv (getirl s).1.currentPaletteNumber]) ∧
    (s.IRCommand = IR_F3 →
      (getirl s).1.currentPaletteNumber
        = (s.currentPaletteNumber + 1) % 256 % s.gPaletteCount ∧
      (1 ≤ s.gPaletteCount →
        (getirl s).1.currentPaletteNumber ≤ s.gPaletteCount - 1) ∧
      (getirl s).1.palchg = 2 ∧
      (getirl s).2
        = [Event.setCurrentPaletteEv (getirl s).1.currentPaletteNumber]) ∧
    ((s.IRCommand = IR_F2 ∨ s.IRCommand = IR_F3) →
      (paletteRotate (getirl s).1).1.currentPaletteNumber
        = (getirl s).1.currentPaletteNumber ∧
      (paletteRotate (getirl s).1).2
        = [Event.setTargetPaletteEv (getirl s).1.currentPaletteNumber]) := by
  refine ⟨?_, ?_, ?_⟩
  · intro hc
    refine ⟨?_, ?_, ?_⟩
    · simp [getirl, girDispatch, hP, hF, hc,
        IR_A1, IR_A2, IR_A3, IR_A4, IR_B1, IR_B2, IR_B3, IR_B4,
        IR_C1, IR_C2, IR_C3, IR_C4, IR_D1, IR_D2, IR_D3, IR_D4,
        IR_E1, IR_E2, IR_E3, IR_E4, IR_F1, IR_F2, IR_F3, IR_F4]
      split_ifs <;> omega
    · simp [getirl, girDispatch, hP, hF, hc,
        IR_A1, IR_A2, IR_A3, IR_A4, IR_B1, IR_B2, IR_B3, IR_B4,
        IR_C1, IR_C2, IR_C3, IR_C4, IR_D1, IR_D2, IR_D3, IR_D4,
        IR_E1, IR_E2, IR_E3, IR_E4, IR_F1, IR_F2, IR_F3, IR_F4]
    · simp [getirl, girDispatch, hP, hF, hc,
        IR_A1, IR_A2, IR_A3, IR_A4, IR_B1, IR_B2, IR_B3, IR_B4,
        IR_C1, IR_C2, IR_C3, IR_C4, IR_D1, IR_D2, IR_D3, IR_D4,
        IR_E1, IR_E2, IR_E3, IR_E4, IR_F1, IR_F2, IR_F3, IR_F4]
  · intro hc
    have h3 : (getirl s).1.currentPaletteNumber
        = (s.currentPaletteNumber + 1) % 256 % s.gPaletteCount := by
      simp [getirl, girDispatch, addmod8, hP, hF, hc,
        IR_A1, IR_A2, IR_A3, IR_A4, IR_B1, IR_B2, IR_B3, IR_B4,
        IR_C1, IR_C2, IR_C3, IR_C4, IR_D1, IR_D2, IR_D3, IR_D4,
        IR_E1, IR_E2, IR_E3, IR_E4, IR_F1, IR_F2, IR_F3, IR_F4]
    refine ⟨h3, ?_, ?_, ?_⟩
    · intro hg
      have hlt := Nat.mod_lt ((s.currentPaletteNumber + 1) % 256)
        (show 0 < s.gPaletteCount from hg)
      rw [h3]
      omega
    · simp [getirl, girDispatch, hP, hF, hc,
        IR_A1, IR_A2, IR_A3, IR_A4, IR_B1, IR_B2, IR_B3, IR_B4,
        IR_C1, IR_C2, IR_C3, IR_C4, IR_D1, IR_D2, IR_D3, IR_D4,
        IR_E1, IR_E2, IR_E3, IR_E4, IR_F1, IR_F2, IR_F3, IR_F4]
    · simp [getirl, girDispatch, addmod8, hP, hF, hc,
        IR_A1, IR_A2, IR_A3, IR_A4, IR_B1, IR_B2, IR_B3, IR_B4,
        IR_C1, IR_C2, IR_C3, IR_C4, IR_D1, IR_D2, IR_D3, IR_D4,
        IR_E1, IR_E2, IR_E3, IR_E4, IR_F1, IR_F2, IR_F3, IR_F4]
  · intro hc
    have hpal : (getirl s).1.palchg ≠ 3 := by
      rcases hc with hc | hc <;>
        simp [getirl, girDispatch, hP, hF, hc,
          IR_A1, IR_A2, IR_A3, IR_A4, IR_B1, IR_B2, IR_B3, IR_B4,
          IR_C1, IR_C2, IR_C3, IR_C4, IR_D1, IR_D2, IR_D3, IR_D4,
          IR_E1, IR_E2, IR_E3, IR_E4, IR_F1, IR_F2, IR_F3, IR_F4]
    constructor <;> simp [paletteRotate, hpal]

/-- Witness for C4 with palette-next from index 5 of 8. -/
theorem C4_palette_step_witness :
    ({ testState with
       IRProtocol := 1, IRCommand := IR_F3,
       currentPaletteNumber := 5 } : MachineState).IRProtocol ≠ 0 ∧
    (getirl { testState with
              IRProtocol := 1, IRCommand := IR_F3,
              currentPaletteNumber := 5 }).1.currentPaletteNumber
      = (5 + 1) % 256 % 8 :=
  ⟨by decide,
   ((C4_palette_step
      { testState with
        IRProtocol := 1, IRCommand := IR_F3, currentPaletteNumber := 5 }
      (by decide) rfl (by decide)).2.1 rfl).1⟩

end Notasound

namespace Notasound

/-- The dispatch switch never reads the latch protocol (the only
branch that does, `IR_B1`, zeroes it first), so once `getirl`'s final
latch reset is applied, the incoming `IRProtocol` value is
irrelevant. -/
lemma girDispatch_IRProtocol_irrel (s : MachineState) (x : Nat) :
    ({ (girDispatch { s with IRProtocol := x }).1 with IRProtocol := 0 },
      (girDispatch { s with IRProtocol := x }).2)
    = ({ (girDispatch s).1 with IRProtocol := 0 },
       (girDispatch s).2) := by
  obtain ⟨p, ad, c, sa, sf, nl, md, lm, dr, ls, mb, sq, td, dir, gl,
    pc, cp, gc, ee⟩ := s
  by_cases h1 : c = IR_A1
  · subst h1; rfl
  by_cases h2 : c = IR_A2
  · subst h2; rfl
  by_cases h3 : c = IR_A3
  · subst h3; rfl
  by_cases h4 : c = IR_A4
  · subst h4; rfl
  by_cases h5 : c = IR_B1
  · subst h5; rfl
  by_cases h6 : c = IR_B2
  · subst h6; cases sa <;> rfl
  by_cases h7 : c = IR_B3
  · subst h7; cases sa <;> rfl
  by_cases h8 : c = IR_B4
  · subst h8; rfl
  by_cases h9 : c = IR_C1
  · subst h9; rfl
  by_cases h10 : c = IR_C2
  · subst h10; rfl
  by_cases h11 : c = IR_C3
  · subst h11; rfl
  by_cases h12 : c = IR_C4
  · subst h12; rfl
  by_cases h13 : c = IR_D1
  · subst h13; rfl
  by_cases h14 : c = IR_D2
  · subst h14; rfl
  by_cases h15 : c = IR_D3
  · subst h15; rfl
  by_cases h16 : c = IR_D4
  · subst h16; rfl
  by_cases h17 : c = IR_E1
  · subst h17; cases sa <;> rfl
  by_cases h18 : c = IR_E2
  · subst h18; cases sa <;> rfl
  by_cases h19 : c = IR_E3
  · subst h19; cases sa <;> rfl
  by_cases h20 : c = IR_E4
  · subst h20; cases sa <;> rfl
  by_cases h21 : c = IR_F1
  · subst h21; rfl
  by_cases h22 : c = IR_F2
  · subst h22; rfl
  by_cases h23 : c = IR_F3
  · subst h23; rfl
  by_cases h24 : c = IR_F4
  · subst h24; rfl
  simp [girDispatch, h1, h2, h3, h4, h5, h6, h7, h8, h9, h10, h11,
    h12, h13, h14, h15, h16, h17, h18, h19, h20, h21, h22, h23, h24]

/-- Apart from the `IR_B1` branch, the dispatch switch leaves the
strand-selection flags unchanged. -/
lemma girDispatch_preserves_strand (s : MachineState)
    (h : s.IRCommand ≠ IR_B1) :
    (girDispatch s).1.strandFlag = s.strandFlag ∧
    (girDispatch s).1.strandActive = s.strandActive := by
  obtain ⟨p, ad, c, sa, sf, nl, md, lm, dr, ls, mb, sq, td, dir, gl,
    pc, cp, gc, ee⟩ := s
  by_cases h1 : c = IR_A1
  · subst h1; exact ⟨rfl, rfl⟩
  by_cases h2 : c = IR_A2
  · subst h2; exact ⟨rfl, rfl⟩
  by_cases h3 : c = IR_A3
  · subst h3; exact ⟨rfl, rfl⟩
  by_cases h4 : c = IR_A4
  · subst h4; exact ⟨rfl, rfl⟩
  by_cases h5 : c = IR_B1
  · exact absurd h5 h
  by_cases h6 : c = IR_B2
  · subst h6; cases sa <;> exact ⟨rfl, rfl⟩
  by_cases h7 : c = IR_B3
  · subst h7; cases sa <;> exact ⟨rfl, rfl⟩
  by_cases h8 : c = IR_B4
  · subst h8; exact ⟨rfl, rfl⟩
  by_cases h9 : c = IR_C1
  · subst h9; exact ⟨rfl, rfl⟩
  by_cases h10 : c = IR_C2
  · subst h10; exact ⟨rfl, rfl⟩
  by_cases h11 : c = IR_C3
  · subst h11; exact ⟨rfl, rfl⟩
  by_cases h12 : c = IR_C4
  · subst h12; exact ⟨rfl, rfl⟩
  by_cases h13 : c = IR_D1
  · subst h13; exact ⟨rfl, rfl⟩
  by_cases h14 : c = IR_D2
  · subst h14; exact ⟨rfl, rfl⟩
  by_cases h15 : c = IR_D3
  · subst h15; exact ⟨rfl, rfl⟩
  by_cases h16 : c = IR_D4
  · subst h16; exact ⟨rfl, rfl⟩
  by_cases h17 : c = IR_E1
  · subst h17; cases sa <;> exact ⟨rfl, rfl⟩
  by_cases h18 : c = IR_E2
  · subst h18; cases sa <;> exact ⟨rfl, rfl⟩
  by_cases h19 : c = IR_E3
  · subst h19; cases sa <;> exact ⟨rfl, rfl⟩
  by_cases h20 : c = IR_E4
  · subst h20; cases sa <;> exact ⟨rfl, rfl⟩
  by_cases h21 : c = IR_F1
  · subst h21; exact ⟨rfl, rfl⟩
  by_cases h22 : c = IR_F2
  · subst h22; exact ⟨rfl, rfl⟩
  by_cases h23 : c = IR_F3
  · subst h23; exact ⟨rfl, rfl⟩
  by_cases h24 : c = IR_F4
  · subst h24; exact ⟨rfl, rfl⟩
  simp [girDispatch, h1, h2, h3, h4, h5, h6, h7, h8, h9, h10, h11,
    h12, h13, h14, h15, h16, h17, h18, h19, h20, h21, h22, h23, h24]

/-- C10: when a strand select is pending (`strandFlag = 1`) and the
answering command is not the select command itself, `getirl` clears
the pending flag, sets `strandActive` exactly when the answer equals
`STRANDID` — and does not consume the answer: the whole pass behaves
exactly as if the same command were dispatched on the
already-strand-updated state, so its ordinary action from the switch
still executes in the same pass. -/
theorem C10_strand_answer_not_consumed (s : MachineState)
    (hF : s.strandFlag = true) (hP : s.IRProtocol ≠ 0)
    (hB : s.IRCommand ≠ IR_B1) :
    (getirl s).1.strandFlag = false ∧
    (getirl s).1.strandActive = (s.IRCommand == STRANDID) ∧
    getirl s
      = getirl { s with
                 strandFlag := false,
                 strandActive := s.IRCommand == STRANDID } := by
  have hP' : ({ s with
                strandFlag := false,
                strandActive := s.IRCommand == STRANDID } :
      MachineState).IRProtocol ≠ 0 := hP
  have hset : set_strand s
      = { ({ s with
             strandFlag := false,
             strandActive := s.IRCommand == STRANDID } : MachineState)
          with IRProtocol := 0 } := by
    simp only [set_strand, if_neg hB, if_pos hP]
  have e1 : getirl s
      = ({ (girDispatch (set_strand s)).1 with IRProtocol := 0 },
         (girDispatch (set_strand s)).2) := by
    simp [getirl, hP, hF]
  have e2 : getirl { s with
                     strandFlag := false,
                     strandActive := s.IRCommand == STRANDID }
      = ({ (girDispatch { s with
                          strandFlag := false,
                          strandActive := s.IRCommand == STRANDID }).1
           with IRProtocol := 0 },
         (girDispatch { s with
                        strandFlag := false,
                        strandActive := s.IRCommand == STRANDID }).2) := by
    simp [getirl, hP']
  have hmain : getirl s
      = getirl { s with
                 strandFlag := false,
                 strandActive := s.IRCommand == STRANDID } := by
    rw [e1, hset, e2]
    exact girDispatch_IRProtocol_irrel
      { s with strandFlag := false,
               strandActive := s.IRCommand == STRANDID } 0
  have hpres := girDispatch_preserves_strand
    { s with strandFlag := false,
             strandActive := s.IRCommand == STRANDID } hB
  refine ⟨?_, ?_, hmain⟩
  · rw [hmain, e2]
    exact hpres.1
  · rw [hmain, e2]
    exact hpres.2

/-- The C10 witness state: strand select pending, answered with the
brightness-down button `IR_A2`, which is this strand's `STRANDID`. -/
def answerState : MachineState :=
  { testState with
    strandFlag := true, IRProtocol := 1, IRCommand := IR_A2 }

/-- Witness for C10: answering the pending select with `IR_A2` (the
`STRANDID`) both activates the strand and still halves the brightness
(255 → 127) in the same pass. -/
theorem C10_strand_answer_not_consumed_witness :
    answerState.strandFlag = true ∧ answerState.IRCommand ≠ IR_B1 ∧
    (getirl answerState).1.strandFlag = false ∧
    (getirl answerState).1.strandActive
      = (answerState.IRCommand == STRANDID) ∧
    getirl answerState
      = getirl { answerState with
                 strandFlag := false,
                 strandActive := answerState.IRCommand == STRANDID } ∧
    (getirl answerState).1.strandActive = true ∧
    (getirl answerState).1.max_bright = 127 :=
  ⟨rfl, by decide,
   (C10_strand_answer_not_consumed answerState rfl (by decide)
      (by decide)).1,
   (C10_strand_answer_not_consumed answerState rfl (by decide)
      (by decide)).2.1,
   (C10_strand_answer_not_consumed answerState rfl (by decide)
      (by decide)).2.2,
   by decide, by decide⟩

end Notasound
